/-
Verification of the insurewatch API gateway (src/src/index.js, src/src/logger.js).

The development shallowly embeds the forwarding + observability pipeline:
header maps are association lists (JS objects with string keys in insertion
order), the outbound HTTP library's resolution rule is modelled by its
documented default (resolve exactly on 2xx status, otherwise reject with an
error carrying the response), spans are explicit records of the attribute,
exception and end events performed on them, and metric emission is a list of
events produced by the finish handler of the per-request middleware.
-/
import Mathlib

set_option autoImplicit false

namespace Gateway

/-- A JS object used as an HTTP header carrier: string keys to string values,
in insertion order, keys unique as in a JS object literal. -/
abbrev HeaderMap := List (String × String)

/-- `h[k]`: value of the first entry whose key is `k`, if any. -/
def getHeader : HeaderMap → String → Option String
  | [], _ => none
  | p :: rest, k => if p.1 = k then some p.2 else getHeader rest k

/-- `h[k] = v` on a JS object: overwrite the entry for `k` in place if the key
exists, otherwise append the new entry. -/
def setHeader : HeaderMap → String → String → HeaderMap
  | [], k, v => [(k, v)]
  | p :: rest, k, v => if p.1 = k then (k, v) :: rest else p :: setHeader rest k v

/-- The identifiers of an active span, as returned by `span.spanContext()`:
`{traceId, spanId, traceFlags}` (`traceFlags` is a number in the OTel JS API). -/
structure SpanContext where
  traceId : String
  spanId : String
  traceFlags : Nat
deriving Repr, DecidableEq

/-- Hexadecimal digit character for a value below 16. -/
def hexDigit (n : Nat) : Char :=
  if n < 10 then Char.ofNat (48 + n) else Char.ofNat (87 + n)

/-- Two-digit lowercase hex rendering of a byte, as the W3C serializer prints
the trace flags. -/
def twoHex (n : Nat) : String :=
  String.mk [hexDigit (n / 16 % 16), hexDigit (n % 16)]

/-- The `traceparent` header value the W3C trace-context propagator writes:
`00-<traceId>-<spanId>-<flags>`. -/
def traceparentValue (sc : SpanContext) : String :=
  "00-" ++ sc.traceId ++ "-" ++ sc.spanId ++ "-" ++ twoHex sc.traceFlags

/-- `propagation.inject(context.active(), carrier)` with the default W3C
trace-context propagator (index.js line 77): writes the serialized context
into the carrier under the `traceparent` key, leaving other keys alone. -/
def inject (h : HeaderMap) (sc : SpanContext) : HeaderMap :=
  setHeader h "traceparent" (traceparentValue sc)

theorem setHeader_setHeader_same (h : HeaderMap) (k v : String) :
    setHeader (setHeader h k v) k v = setHeader h k v := by
  induction h with
  | nil => simp [setHeader]
  | cons p rest ih =>
      by_cases hp : p.1 = k
      · simp [setHeader, hp]
      · simp [setHeader, hp, ih]

theorem getHeader_setHeader_ne (h : HeaderMap) (k v k' : String) (hne : k' ≠ k) :
    getHeader (setHeader h k v) k' = getHeader h k' := by
  induction h with
  | nil => simp [setHeader, getHeader, hne, Ne.symm hne]
  | cons p rest ih =>
      by_cases hp : p.1 = k
      · simp [setHeader, getHeader, hp, hne, Ne.symm hne]
      · by_cases hp' : p.1 = k'
        · simp [setHeader, getHeader, hp, hp', hne]
        · simp [setHeader, getHeader, hp, hp', ih]

theorem getHeader_setHeader_same (h : HeaderMap) (k v : String) :
    getHeader (setHeader h k v) k = some v := by
  induction h with
  | nil => simp [setHeader, getHeader]
  | cons p rest ih =>
      by_cases hp : p.1 = k
      · simp [setHeader, getHeader, hp]
      · simp [setHeader, getHeader, hp, ih]

/-- An attribute value set on a span. -/
inductive AttrVal
  | nat (n : Nat)
  | bool (b : Bool)
  | str (s : String)
deriving Repr, DecidableEq

/-- A span as mutated by forwardRequest: the attribute / exception / end events
performed on it are recorded, so that the span lifecycle is checkable. -/
structure Span where
  name : String
  attrs : List (String × AttrVal)
  exceptions : List String
  endCount : Nat
deriving Repr, DecidableEq

/-- `tracer.startSpan(name)`. -/
def Span.start (name : String) : Span :=
  { name := name, attrs := [], exceptions := [], endCount := 0 }

/-- `span.setAttribute(key, value)`. -/
def Span.setAttribute (s : Span) (k : String) (v : AttrVal) : Span :=
  { s with attrs := s.attrs ++ [(k, v)] }

/-- `span.recordException(err)`. -/
def Span.recordException (s : Span) (msg : String) : Span :=
  { s with exceptions := s.exceptions ++ [msg] }

/-- `span.end()`. -/
def Span.endSpan (s : Span) : Span :=
  { s with endCount := s.endCount + 1 }

/-- A downstream service's HTTP reply: status code plus the JSON body text. -/
structure DownstreamResponse where
  status : Nat
  body : String
deriving Repr, DecidableEq

/-- What the network hop to the downstream produces: an HTTP reply of some
status, or a transport-level failure (timeout, connection refused, DNS). -/
inductive DownstreamOutcome
  | reply (r : DownstreamResponse)
  | transport (message : String)
deriving Repr, DecidableEq

/-- The JS error thrown by the HTTP client: `message`, and `response` present
exactly when the downstream sent an HTTP reply whose status was rejected. -/
structure JsError where
  message : String
  response : Option DownstreamResponse
deriving Repr, DecidableEq

/-- Result of awaiting `axios(config)`. -/
inductive AxiosResult
  | resolved (r : DownstreamResponse)
  | rejected (e : JsError)
deriving Repr, DecidableEq

/-- axios's default `validateStatus`: resolve exactly when `200 <= s < 300`. -/
def axiosValidateStatus (s : Nat) : Bool :=
  200 ≤ s && s < 300

/-- The resolution rule of `await axios({...})` with the default config, as the
call at index.js lines 80-86 uses it: an HTTP reply resolves when its status
passes `validateStatus` and otherwise rejects with an error carrying the
response; a transport failure rejects with an error carrying no response. -/
def axiosCall (o : DownstreamOutcome) : AxiosResult :=
  match o with
  | .reply r =>
      if axiosValidateStatus r.status then .resolved r
      else .rejected { message := "Request failed with status code " ++ toString r.status,
                       response := some r }
  | .transport m => .rejected { message := m, response := none }

/-- Numeric value of a decimal digit string, accumulator style. -/
def digitsVal : List Char → Nat → Nat
  | [], acc => acc
  | c :: cs, acc => digitsVal cs (acc * 10 + (c.toNat - 48))

/-- Numeric value of a hex digit character. -/
def hexVal (c : Char) : Nat :=
  if c.isDigit then c.toNat - 48
  else if 'a' ≤ c ∧ c ≤ 'f' then c.toNat - 87
  else c.toNat - 55

/-- Whether a character is a hexadecimal digit. -/
def isHexDigit (c : Char) : Bool :=
  c.isDigit || ('a' ≤ c && c ≤ 'f') || ('A' ≤ c && c ≤ 'F')

/-- Numeric value of a hex digit string, accumulator style. -/
def hexDigitsVal : List Char → Nat → Nat
  | [], acc => acc
  | c :: cs, acc => hexDigitsVal cs (acc * 16 + hexVal c)

/-- Longest decimal-digit prefix as a number; `none` when there is none. -/
def jsParseDec (cs : List Char) : Option Nat :=
  let ds := cs.takeWhile Char.isDigit
  if ds.isEmpty then none else some (digitsVal ds 0)

/-- Unsigned part of JS `parseInt(s)` (radix auto-detection): a `0x`/`0X`
prefix switches to hexadecimal, otherwise the longest decimal-digit prefix is
taken; no digits means NaN (`none`). -/
def jsParseUnsigned (cs : List Char) : Option Nat :=
  match cs with
  | '0' :: c :: rest =>
      if c = 'x' ∨ c = 'X' then
        let ds := rest.takeWhile isHexDigit
        if ds.isEmpty then none else some (hexDigitsVal ds 0)
      else jsParseDec ('0' :: c :: rest)
  | _ => jsParseDec cs

/-- JS `parseInt(s)` with no radix argument: skip leading whitespace, read an
optional sign, then the unsigned part; `none` stands for NaN. -/
def jsParseInt (s : String) : Option Int :=
  let cs := s.toList.dropWhile (fun c => c = ' ' || c = '\t' || c = '\n' || c = '\r')
  match cs with
  | '-' :: rest => (jsParseUnsigned rest).map (fun n => -(n : Int))
  | '+' :: rest => (jsParseUnsigned rest).map (fun n => (n : Int))
  | _ => (jsParseUnsigned cs).map (fun n => (n : Int))

/-- JS `x || d` for a numeric `x` that may be undefined: undefined, NaN and 0
are falsy, so they yield the default. -/
def jsOrInt (x : Option Int) (d : Int) : Int :=
  match x with
  | some n => if n = 0 then d else n
  | none => d

/-- JS `x || d` for an optional HTTP status (`err.response?.status || 503`):
undefined and 0 are falsy. -/
def jsOrNat (x : Option Nat) (d : Nat) : Nat :=
  match x with
  | some n => if n = 0 then d else n
  | none => d

/-- `parseInt(process.env.REQUEST_TIMEOUT_MS) || 10000` (index.js line 85);
an unset variable is `undefined`, whose parse is NaN. -/
def requestTimeoutMs (env : Option String) : Int :=
  jsOrInt (env.bind jsParseInt) 10000

/-- The config object handed to axios at index.js lines 80-86. -/
structure AxiosConfig where
  method : String
  url : String
  data : Option String
  headers : HeaderMap
  timeout : Int
deriving Repr, DecidableEq

/-- `forwardRequest(serviceUrl, path, method, data, headers)` (index.js lines
71-96), evaluated against a given active context, `REQUEST_TIMEOUT_MS`
environment value, and downstream outcome. Returns what the JS function
communicates to its caller (the response data, or the thrown error), the span
it manipulated, and the config it passed to axios. -/
def forwardRequest (serviceUrl path method : String) (data : Option String)
    (headers : HeaderMap) (ctx : SpanContext) (envTimeout : Option String)
    (outcome : DownstreamOutcome) :
    Except JsError String × Span × AxiosConfig :=
  let span := Span.start ("forward " ++ path)
  let outgoingHeaders := inject headers ctx
  let config : AxiosConfig :=
    { method := method, url := serviceUrl ++ path, data := data,
      headers := outgoingHeaders, timeout := requestTimeoutMs envTimeout }
  match axiosCall outcome with
  | .resolved r =>
      let span := span.setAttribute "http.status_code" (.nat r.status)
      let span := span.endSpan
      (Except.ok r.body, span, config)
  | .rejected e =>
      let span := span.recordException e.message
      let span := span.setAttribute "error" (.bool true)
      let span := span.endSpan
      (Except.error e, span, config)

/-- Body of the gateway's own response: either the forwarded downstream data
(`res.json(result)`) or the `{error, details?}` object built in a catch. -/
inductive GatewayBody
  | forwarded (data : String)
  | errObj (error : String) (details : Option String)
deriving Repr, DecidableEq

/-- The HTTP response the gateway sends to its client. -/
structure GatewayResponse where
  status : Nat
  body : GatewayBody
deriving Repr, DecidableEq

/-- Default base URLs of the logical services (index.js lines 15-21, with the
environment overrides unset). -/
def SERVICES : String → String
  | "claims" => "http://localhost:3001"
  | "policy" => "http://localhost:8080"
  | "investment" => "http://localhost:3002"
  | "notification" => "http://localhost:3003"
  | "chaos" => "http://localhost:3004"
  | _ => ""

/-- Result data of a route handler run: the client response and the forward
call's span. -/
structure HandlerRun where
  response : GatewayResponse
  span : Span
deriving Repr, DecidableEq

/-- `app.post('/api/claims')` (index.js lines 104-116): on success
`res.json(result)` (Express default status 200); on a thrown error
`res.status(err.response?.status || 503).json({error, details})`. -/
def handlePostClaims (reqBody : String) (ctx : SpanContext) (envTimeout : Option String)
    (outcome : DownstreamOutcome) : HandlerRun :=
  match forwardRequest (SERVICES "claims") "/claims" "POST" (some reqBody) [] ctx envTimeout outcome with
  | (Except.ok result, span, _) =>
      { response := { status := 200, body := .forwarded result }, span := span }
  | (Except.error e, span, _) =>
      { response := { status := jsOrNat (e.response.map DownstreamResponse.status) 503,
                      body := .errObj "Claims service unavailable" (some e.message) },
        span := span }

/-- `app.get('/api/claims/:id')` (index.js lines 118-126). -/
def handleGetClaimById (id : String) (ctx : SpanContext) (envTimeout : Option String)
    (outcome : DownstreamOutcome) : HandlerRun :=
  match forwardRequest (SERVICES "claims") ("/claims/" ++ id) "GET" none [] ctx envTimeout outcome with
  | (Except.ok result, span, _) =>
      { response := { status := 200, body := .forwarded result }, span := span }
  | (Except.error e, span, _) =>
      { response := { status := jsOrNat (e.response.map DownstreamResponse.status) 503,
                      body := .errObj "Claims service unavailable" none },
        span := span }

/-- `app.get('/api/claims')` (index.js lines 128-136). -/
def handleGetClaims (ctx : SpanContext) (envTimeout : Option String)
    (outcome : DownstreamOutcome) : HandlerRun :=
  match forwardRequest (SERVICES "claims") "/claims" "GET" none [] ctx envTimeout outcome with
  | (Except.ok result, span, _) =>
      { response := { status := 200, body := .forwarded result }, span := span }
  | (Except.error e, span, _) =>
      { response := { status := jsOrNat (e.response.map DownstreamResponse.status) 503,
                      body := .errObj "Claims service unavailable" none },
        span := span }

/-- `app.get('/api/policy/:customerId')` (index.js lines 139-147). -/
def handleGetPolicy (customerId : String) (ctx : SpanContext) (envTimeout : Option String)
    (outcome : DownstreamOutcome) : HandlerRun :=
  match forwardRequest (SERVICES "policy") ("/policy/" ++ customerId) "GET" none [] ctx envTimeout outcome with
  | (Except.ok result, span, _) =>
      { response := { status := 200, body := .forwarded result }, span := span }
  | (Except.error e, span, _) =>
      { response := { status := jsOrNat (e.response.map DownstreamResponse.status) 503,
                      body := .errObj "Policy service unavailable" none },
        span := span }

/-- `app.get('/api/policy/:customerId/coverage')` (index.js lines 149-157). -/
def handleGetPolicyCoverage (customerId : String) (ctx : SpanContext) (envTimeout : Option String)
    (outcome : DownstreamOutcome) : HandlerRun :=
  match forwardRequest (SERVICES "policy") ("/policy/" ++ customerId ++ "/coverage") "GET" none [] ctx envTimeout outcome with
  | (Except.ok result, span, _) =>
      { response := { status := 200, body := .forwarded result }, span := span }
  | (Except.error e, span, _) =>
      { response := { status := jsOrNat (e.response.map DownstreamResponse.status) 503,
                      body := .errObj "Policy service unavailable" none },
        span := span }

/-- `app.get('/api/investments/:customerId')` (index.js lines 160-168). -/
def handleGetInvestments (customerId : String) (ctx : SpanContext) (envTimeout : Option String)
    (outcome : DownstreamOutcome) : HandlerRun :=
  match forwardRequest (SERVICES "investment") ("/investments/" ++ customerId) "GET" none [] ctx envTimeout outcome with
  | (Except.ok result, span, _) =>
      { response := { status := 200, body := .forwarded result }, span := span }
  | (Except.error e, span, _) =>
      { response := { status := jsOrNat (e.response.map DownstreamResponse.status) 503,
                      body := .errObj "Investment service unavailable" none },
        span := span }

/-- `app.get('/api/chaos/status')` (index.js lines 171-178): the catch responds
`503 {error}` unconditionally. -/
def handleChaosStatus (ctx : SpanContext) (envTimeout : Option String)
    (outcome : DownstreamOutcome) : HandlerRun :=
  match forwardRequest (SERVICES "chaos") "/chaos/status" "GET" none [] ctx envTimeout outcome with
  | (Except.ok result, span, _) =>
      { response := { status := 200, body := .forwarded result }, span := span }
  | (Except.error _, span, _) =>
      { response := { status := 503, body := .errObj "Chaos controller unavailable" none },
        span := span }

/-- `app.post('/api/chaos/toggle')` (index.js lines 180-188): the catch responds
`503 {error}` unconditionally. -/
def handleChaosToggle (reqBody : String) (ctx : SpanContext) (envTimeout : Option String)
    (outcome : DownstreamOutcome) : HandlerRun :=
  match forwardRequest (SERVICES "chaos") "/chaos/toggle" "POST" (some reqBody) [] ctx envTimeout outcome with
  | (Except.ok result, span, _) =>
      { response := { status := 200, body := .forwarded result }, span := span }
  | (Except.error _, span, _) =>
      { response := { status := 503, body := .errObj "Chaos controller unavailable" none },
        span := span }

/-- Metric labels `{method, route, status}` (index.js line 54). -/
structure Labels where
  method : String
  route : String
  status : String
deriving Repr, DecidableEq

/-- One metric emission: a counter `add` or a histogram `record`. -/
inductive MetricEvent
  | counterAdd (name : String) (value : Nat) (labels : Labels)
  | histRecord (name : String) (value : Nat) (labels : Labels)
deriving Repr, DecidableEq

/-- The labels a metric event carries. -/
def MetricEvent.labels : MetricEvent → Labels
  | .counterAdd _ _ l => l
  | .histRecord _ _ l => l

/-- The instrument name a metric event targets. -/
def MetricEvent.name : MetricEvent → String
  | .counterAdd n _ _ => n
  | .histRecord n _ _ => n

/-- The `res.on('finish')` callback of the metrics middleware (index.js lines
52-65): build the labels once from the request and the final status, add 1 to
the request counter, record the duration, and add 1 to the error counter
exactly when the status is at least 400. The returned list is everything one
invocation emits. -/
def onFinish (method route : String) (statusCode : Nat) (durationMs : Nat) :
    List MetricEvent :=
  let labels : Labels := { method := method, route := route, status := toString statusCode }
  [MetricEvent.counterAdd "gateway.requests.total" 1 labels,
   MetricEvent.histRecord "gateway.request.duration" durationMs labels]
  ++ (if statusCode ≥ 400 then [MetricEvent.counterAdd "gateway.errors.total" 1 labels] else [])

/-- How many events in a list target the given instrument. -/
def countEvents (events : List MetricEvent) (instrument : String) : Nat :=
  (events.filter (fun e => e.name = instrument)).length

/-- One full request through the pipeline for a route: run the handler, then
fire the finish callback once on the final response, as Node does when the
response is written. -/
def pipelineRun (route : HandlerRun) (method path : String) (durationMs : Nat) :
    GatewayResponse × List MetricEvent :=
  (route.response, onFinish method path route.response.status durationMs)

/-- A reference to a JS header object on the heap. -/
abbrev HeaderRef := Nat

/-- The heap of header objects: a reference is an index into the list; an
allocation appends. This makes aliasing and in-place mutation explicit, so
that "the callee does not mutate the caller's object" is a real statement. -/
abbrev HeaderStore := List HeaderMap

/-- Allocate a fresh object holding the given entries; returns the new heap
and the fresh reference. -/
def allocHeader (st : HeaderStore) (m : HeaderMap) : HeaderStore × HeaderRef :=
  (st ++ [m], st.length)

/-- Dereference (a dangling reference reads as the empty object). -/
def readHeader (st : HeaderStore) (r : HeaderRef) : HeaderMap :=
  (st[r]?).getD []

/-- Overwrite the object a reference points at. -/
def writeHeader (st : HeaderStore) (r : HeaderRef) (m : HeaderMap) : HeaderStore :=
  st.set r m

/-- Index.js lines 76-77 with the heap explicit:
`const outgoingHeaders = { ...headers }` allocates a fresh object with the
caller's entries, and `propagation.inject(context.active(), outgoingHeaders)`
then mutates that fresh carrier in place. Returns the heap after both steps
and the reference to the outgoing headers object. -/
def forwardHeadersStep (st : HeaderStore) (headersRef : HeaderRef) (ctx : SpanContext) :
    HeaderStore × HeaderRef :=
  let (st1, outRef) := allocHeader st (readHeader st headersRef)
  let st2 := writeHeader st1 outRef (inject (readHeader st1 outRef) ctx)
  (st2, outRef)

/-- A structured log record about to be emitted by winston: level, message,
the caller's metadata, and the optional trace-correlation fields that
`traceContextFormat` may add (absent when it does not). -/
structure LogInfo where
  level : String
  message : String
  meta : List (String × String)
  traceId : Option String
  spanId : Option String
  traceFlags : Option Nat
deriving Repr, DecidableEq

/-- `traceContextFormat` (logger.js lines 5-14): if a span is active, read its
`spanContext()` and set `info.traceId`, `info.spanId`, `info.traceFlags`;
otherwise return the record unchanged. -/
def traceContextFormat (activeSpan : Option SpanContext) (info : LogInfo) : LogInfo :=
  match activeSpan with
  | some sc =>
      { info with traceId := some sc.traceId, spanId := some sc.spanId,
                  traceFlags := some sc.traceFlags }
  | none => info

/-- A `logger.<level>(message, meta)` call: the caller supplies no trace
fields; the format step runs against whatever context is active. The call is
total — it always produces a record. -/
def logEmit (activeSpan : Option SpanContext) (level message : String)
    (meta : List (String × String)) : LogInfo :=
  traceContextFormat activeSpan
    { level := level, message := message, meta := meta,
      traceId := none, spanId := none, traceFlags := none }

/-- A concrete span context used in witnesses and scenarios (the W3C example
identifiers). -/
def ctx0 : SpanContext :=
  { traceId := "4bf92f3577b34da6a3ce929d0e0e4736", spanId := "00f067aa0ba902b7", traceFlags := 1 }

/-- C4: on every exit path of forwardRequest — the outbound call resolves with
a response of any status, or rejects with a transport failure or a rejected
status — the span created for the forward call is ended exactly once. -/
theorem forwardRequest_span_ended_once (serviceUrl path method : String)
    (data : Option String) (headers : HeaderMap) (ctx : SpanContext)
    (envTimeout : Option String) (outcome : DownstreamOutcome) :
    (forwardRequest serviceUrl path method data headers ctx envTimeout outcome).2.1.endCount = 1 := by
  cases outcome with
  | reply r =>
      by_cases h : axiosValidateStatus r.status <;>
        simp [forwardRequest, axiosCall, h, Span.start, Span.setAttribute,
              Span.recordException, Span.endSpan]
  | transport m =>
      simp [forwardRequest, axiosCall, Span.start, Span.setAttribute,
            Span.recordException, Span.endSpan]

/-- C5: one invocation of the finish callback emits the request-counter
increment, the duration observation, and the error-counter increment (when it
occurs) all under one identical label triple built once from the completed
request, and emits exactly one event per instrument (the error counter zero or
one times). -/
theorem onFinish_labels_consistent (method route : String) (statusCode durationMs : Nat) :
    (∀ e ∈ onFinish method route statusCode durationMs,
        e.labels = { method := method, route := route, status := toString statusCode }) ∧
    countEvents (onFinish method route statusCode durationMs) "gateway.requests.total" = 1 ∧
    countEvents (onFinish method route statusCode durationMs) "gateway.request.duration" = 1 ∧
    countEvents (onFinish method route statusCode durationMs) "gateway.errors.total"
      = (if 400 ≤ statusCode then 1 else 0) := by
  refine ⟨?_, ?_, ?_, ?_⟩
  · intro e he
    by_cases h : 400 ≤ statusCode
    · simp [onFinish, h] at he
      rcases he with rfl | rfl | rfl <;> rfl
    · simp [onFinish, h] at he
      rcases he with rfl | rfl <;> rfl
  · by_cases h : 400 ≤ statusCode <;>
      simp [onFinish, countEvents, h, MetricEvent.name, List.filter]
  · by_cases h : 400 ≤ statusCode <;>
      simp [onFinish, countEvents, h, MetricEvent.name, List.filter]
  · by_cases h : 400 ≤ statusCode <;>
      simp [onFinish, countEvents, h, MetricEvent.name, List.filter]

/-- Witness for C5 at a concrete completed request. -/
theorem onFinish_labels_consistent_witness :
    (MetricEvent.counterAdd "gateway.requests.total" 1
        { method := "GET", route := "/health", status := "200" }).labels
      = { method := "GET", route := "/health", status := "200" } ∧
    countEvents (onFinish "GET" "/health" 200 5) "gateway.requests.total" = 1 :=
  ⟨(onFinish_labels_consistent "GET" "/health" 200 5).1
      (MetricEvent.counterAdd "gateway.requests.total" 1
        { method := "GET", route := "/health", status := "200" }) (by decide),
   (onFinish_labels_consistent "GET" "/health" 200 5).2.1⟩

/-- C6: a completed request increments the error counter exactly once when the
final status code sent to the client is at least 400, and not at all
otherwise. -/
theorem onFinish_errorCounter_iff_ge_400 (method route : String) (statusCode durationMs : Nat) :
    countEvents (onFinish method route statusCode durationMs) "gateway.errors.total"
      = (if 400 ≤ statusCode then 1 else 0) := by
  by_cases h : 400 ≤ statusCode <;>
    simp [onFinish, countEvents, h, MetricEvent.name, List.filter]

/-- C7: injecting the trace context into a header map is idempotent, preserves
every header under a key other than the trace propagation header, and sets or
overwrites exactly the `traceparent` entry. -/
theorem inject_idempotent_preserving (h : HeaderMap) (ctx : SpanContext) :
    inject (inject h ctx) ctx = inject h ctx ∧
    (∀ k, k ≠ "traceparent" → getHeader (inject h ctx) k = getHeader h k) ∧
    getHeader (inject h ctx) "traceparent" = some (traceparentValue ctx) :=
  ⟨setHeader_setHeader_same h "traceparent" (traceparentValue ctx),
   fun k hk => getHeader_setHeader_ne h "traceparent" (traceparentValue ctx) k hk,
   getHeader_setHeader_same h "traceparent" (traceparentValue ctx)⟩

/-- Witness for C7 on a concrete header map: the pre-existing header survives
injection. -/
theorem inject_idempotent_preserving_witness :
    getHeader (inject [("accept", "application/json")] ctx0) "accept"
      = getHeader [("accept", "application/json")] "accept" :=
  (inject_idempotent_preserving [("accept", "application/json")] ctx0).2.1
    "accept" (by decide)

/-- C8: a log record created while a span context is active carries that
context's traceId, spanId and traceFlags without the caller supplying them;
with no active context the three fields are absent and the call still
produces the record with its level, message and metadata intact. -/
theorem logEmit_trace_correlation (sc : SpanContext) (level message : String)
    (meta : List (String × String)) :
    ((logEmit (some sc) level message meta).traceId = some sc.traceId ∧
     (logEmit (some sc) level message meta).spanId = some sc.spanId ∧
     (logEmit (some sc) level message meta).traceFlags = some sc.traceFlags ∧
     (logEmit (some sc) level message meta).meta = meta) ∧
    ((logEmit none level message meta).traceId = none ∧
     (logEmit none level message meta).spanId = none ∧
     (logEmit none level message meta).traceFlags = none ∧
     (logEmit none level message meta).level = level ∧
     (logEmit none level message meta).message = message ∧
     (logEmit none level message meta).meta = meta) := by
  simp [logEmit, traceContextFormat]

/-- C9: when `REQUEST_TIMEOUT_MS` is unset, or set to a string whose parse is
NaN or zero, the outbound call's timeout is the 10000 ms default — every
forwardRequest call issues its axios call with `timeout = 10000`. -/
theorem requestTimeout_defaults_to_10000 (env : Option String)
    (h : env.bind jsParseInt = none ∨ env.bind jsParseInt = some 0) :
    requestTimeoutMs env = 10000 ∧
    ∀ serviceUrl path method data headers ctx outcome,
      (forwardRequest serviceUrl path method data headers ctx env outcome).2.2.timeout
        = 10000 := by
  have hbase : requestTimeoutMs env = 10000 := by
    rcases h with h | h <;> simp [requestTimeoutMs, jsOrInt, h]
  refine ⟨hbase, ?_⟩
  intro serviceUrl path method data headers ctx outcome
  cases outcome with
  | reply r =>
      by_cases hv : axiosValidateStatus r.status <;>
        simp [forwardRequest, axiosCall, hv, hbase]
  | transport m => simp [forwardRequest, axiosCall, hbase]

/-- Witness for C9 at `REQUEST_TIMEOUT_MS = "abc"`. -/
theorem requestTimeout_defaults_to_10000_witness :
    requestTimeoutMs (some "abc") = 10000 ∧
    (forwardRequest (SERVICES "claims") "/claims" "GET" none [] ctx0 (some "abc")
        (.transport "timeout of 10000ms exceeded")).2.2.timeout = 10000 :=
  ⟨(requestTimeout_defaults_to_10000 (some "abc") (Or.inl (by decide))).1,
   (requestTimeout_defaults_to_10000 (some "abc") (Or.inl (by decide))).2
      (SERVICES "claims") "/claims" "GET" none [] ctx0
      (.transport "timeout of 10000ms exceeded")⟩

/-- C10: forwardRequest never mutates the caller's headers object — the trace
context goes into a freshly allocated shallow copy, so after lines 76-77 the
caller's object is unchanged, the outgoing carrier is a different object, and
its contents are the injection into a copy of the original entries. -/
theorem forwardHeaders_frame (st : HeaderStore) (r : HeaderRef) (ctx : SpanContext)
    (h : r < st.length) :
    readHeader (forwardHeadersStep st r ctx).1 r = readHeader st r ∧
    (forwardHeadersStep st r ctx).2 ≠ r ∧
    readHeader (forwardHeadersStep st r ctx).1 (forwardHeadersStep st r ctx).2
      = inject (readHeader st r) ctx := by
  have hne : st.length ≠ r := Nat.ne_of_gt h
  refine ⟨?_, ?_, ?_⟩
  · simp only [forwardHeadersStep, allocHeader, writeHeader, readHeader]
    rw [List.getElem?_set_ne hne, List.getElem?_append_left h]
  · simpa [forwardHeadersStep, allocHeader] using fun he => hne he
  · simp only [forwardHeadersStep, allocHeader, writeHeader, readHeader]
    rw [List.getElem?_set_eq_of_lt _ (by simp), List.getElem?_concat_length]
    simp

/-- Witness for C10 on a concrete heap: the caller's header object is intact
after the copy-and-inject step. -/
theorem forwardHeaders_frame_witness :
    readHeader (forwardHeadersStep [[("accept", "application/json")]] 0 ctx0).1 0
      = readHeader [[("accept", "application/json")]] 0 :=
  (forwardHeaders_frame [[("accept", "application/json")]] 0 ctx0 (by decide)).1

/-- C1 counterexample: with the Claims backend replying 404 and a JSON body,
forwardRequest does NOT return the body — axios's default validateStatus
rejects every non-2xx status, so the error path runs (exception recorded,
`error` attribute set) and the route handler's catch replaces the body. -/
theorem forwardRequest_404_counterexample :
    (forwardRequest (SERVICES "claims") "/claims/UNKNOWN" "GET" none [] ctx0 none
        (.reply { status := 404, body := "\x7b\"error\":\"not found\"\x7d" })).1
      = Except.error
          { message := "Request failed with status code 404",
            response := some { status := 404, body := "\x7b\"error\":\"not found\"\x7d" } } ∧
    (forwardRequest (SERVICES "claims") "/claims/UNKNOWN" "GET" none [] ctx0 none
        (.reply { status := 404, body := "\x7b\"error\":\"not found\"\x7d" })).2.1.exceptions
      ≠ [] ∧
    (handleGetClaimById "UNKNOWN" ctx0 none
        (.reply { status := 404, body := "\x7b\"error\":\"not found\"\x7d" })).response.body
      ≠ GatewayBody.forwarded "\x7b\"error\":\"not found\"\x7d" := by
  refine ⟨rfl, by decide, by decide⟩

/-- C1 (amended): forwardRequest's success path — numeric status recorded on
the span, span ended without exception, body returned unchanged — applies
exactly to the statuses axios's default validateStatus accepts (2xx); every
other HTTP reply, like every transport failure, takes the error path, which
records the exception, sets the `error` attribute, ends the span, and throws
an error carrying the response. Hence for GET /api/claims/:id with a
downstream 404, the gateway responds 404 (via `err.response?.status`) with
body `{error: "Claims service unavailable"}`, not the downstream body. -/
theorem forwardRequest_status_partition (serviceUrl path method : String)
    (data : Option String) (headers : HeaderMap) (ctx : SpanContext)
    (env : Option String) (r : DownstreamResponse) :
    (axiosValidateStatus r.status = true →
        (forwardRequest serviceUrl path method data headers ctx env (.reply r)).1
            = Except.ok r.body ∧
        (forwardRequest serviceUrl path method data headers ctx env (.reply r)).2.1.attrs
            = [("http.status_code", AttrVal.nat r.status)] ∧
        (forwardRequest serviceUrl path method data headers ctx env (.reply r)).2.1.exceptions
            = [] ∧
        (forwardRequest serviceUrl path method data headers ctx env (.reply r)).2.1.endCount
            = 1) ∧
    (axiosValidateStatus r.status = false →
        (forwardRequest serviceUrl path method data headers ctx env (.reply r)).1
            = Except.error
                { message := "Request failed with status code " ++ toString r.status,
                  response := some r } ∧
        (forwardRequest serviceUrl path method data headers ctx env (.reply r)).2.1.attrs
            = [("error", AttrVal.bool true)] ∧
        (forwardRequest serviceUrl path method data headers ctx env (.reply r)).2.1.exceptions
            = ["Request failed with status code " ++ toString r.status] ∧
        (forwardRequest serviceUrl path method data headers ctx env (.reply r)).2.1.endCount
            = 1) ∧
    (handleGetClaimById "UNKNOWN" ctx0 none
        (.reply { status := 404, body := "\x7b\"error\":\"not found\"\x7d" })).response
      = { status := 404, body := .errObj "Claims service unavailable" none } := by
  refine ⟨fun hv => ?_, fun hv => ?_, by decide⟩
  · simp [forwardRequest, axiosCall, hv, Span.start, Span.setAttribute, Span.endSpan]
  · simp [forwardRequest, axiosCall, hv, Span.start, Span.setAttribute,
          Span.recordException, Span.endSpan]

/-- Witness for C1 (amended): the 2xx branch at a 200 reply and the non-2xx
branch at a 404 reply, both with hypotheses discharged concretely. -/
theorem forwardRequest_status_partition_witness :
    (forwardRequest (SERVICES "claims") "/claims" "GET" none [] ctx0 none
        (.reply { status := 200, body := "[]" })).1 = Except.ok "[]" ∧
    (forwardRequest (SERVICES "claims") "/claims" "GET" none [] ctx0 none
        (.reply { status := 404, body := "[]" })).2.1.endCount = 1 :=
  ⟨((forwardRequest_status_partition (SERVICES "claims") "/claims" "GET" none [] ctx0 none
      { status := 200, body := "[]" }).1 (by decide)).1,
   ((forwardRequest_status_partition (SERVICES "claims") "/claims" "GET" none [] ctx0 none
      { status := 404, body := "[]" }).2.1 (by decide)).2.2.2⟩

/-- C2 counterexample: in the 201 scenario the gateway's status is 200, not
201 — the success handler calls `res.json(result)` without propagating the
downstream status, so the metrics labels carry "200" as well. -/
theorem postClaims_201_counterexample :
    (handlePostClaims "\x7b\"policyId\":\"P1\",\"amount\":500\x7d" ctx0 none
        (.reply { status := 201, body := "\x7b\"claimId\":\"C9\"\x7d" })).response.status
      = 200 ∧
    (200 : Nat) ≠ 201 ∧
    (pipelineRun (handlePostClaims "\x7b\"policyId\":\"P1\",\"amount\":500\x7d" ctx0 none
        (.reply { status := 201, body := "\x7b\"claimId\":\"C9\"\x7d" }))
        "POST" "/api/claims" 7).2
      = [MetricEvent.counterAdd "gateway.requests.total" 1
           { method := "POST", route := "/api/claims", status := "200" },
         MetricEvent.histRecord "gateway.request.duration" 7
           { method := "POST", route := "/api/claims", status := "200" }] := by
  refine ⟨by decide, by decide, rfl⟩

/-- C2 (amended): for POST /api/claims with a downstream 201 and body
`{claimId: "C9"}`, the gateway responds 200 (Express's default status — the
handler does not propagate the downstream 201) with the body unchanged;
exactly one request-counter increment and one duration observation are
emitted, both labelled with status "200", and the error counter is not
incremented. -/
theorem postClaims_201_scenario (durationMs : Nat) :
    (pipelineRun (handlePostClaims "\x7b\"policyId\":\"P1\",\"amount\":500\x7d" ctx0 none
        (.reply { status := 201, body := "\x7b\"claimId\":\"C9\"\x7d" }))
        "POST" "/api/claims" durationMs).1
      = { status := 200, body := .forwarded "\x7b\"claimId\":\"C9\"\x7d" } ∧
    (pipelineRun (handlePostClaims "\x7b\"policyId\":\"P1\",\"amount\":500\x7d" ctx0 none
        (.reply { status := 201, body := "\x7b\"claimId\":\"C9\"\x7d" }))
        "POST" "/api/claims" durationMs).2
      = [MetricEvent.counterAdd "gateway.requests.total" 1
           { method := "POST", route := "/api/claims", status := "200" },
         MetricEvent.histRecord "gateway.request.duration" durationMs
           { method := "POST", route := "/api/claims", status := "200" }] ∧
    countEvents
      ((pipelineRun (handlePostClaims "\x7b\"policyId\":\"P1\",\"amount\":500\x7d" ctx0 none
          (.reply { status := 201, body := "\x7b\"claimId\":\"C9\"\x7d" }))
          "POST" "/api/claims" durationMs).2)
      "gateway.errors.total" = 0 := by
  refine ⟨?_, ?_, ?_⟩ <;>
    simp [pipelineRun, handlePostClaims, forwardRequest, axiosCall, axiosValidateStatus,
          onFinish, countEvents, MetricEvent.name, SERVICES,
          show toString (200 : Nat) = "200" from rfl]

/-- C3 counterexample: for GET /api/chaos/status with the chaos backend
replying 404 (downstream responded), the gateway responds 503, not the
downstream's status — the chaos catch handlers hardcode 503. -/
theorem chaosStatus_404_counterexample :
    (handleChaosStatus ctx0 none (.reply { status := 404, body := "\x7b\x7d" })).response.status
      = 503 ∧
    (503 : Nat) ≠ 404 := by
  refine ⟨by decide, by decide⟩

/-- C3 (amended): when forwardRequest fails, the claims, policy and investment
routes respond with the downstream status when the downstream responded (else
503) and a JSON `{error, details?}` body (details only on POST /api/claims);
the two chaos routes (/api/chaos/status, /api/chaos/toggle) respond 503
unconditionally, regardless of any downstream status. -/
theorem forwardFailure_response_contract (reqBody id custId : String) (ctx : SpanContext)
    (env : Option String) (o : DownstreamOutcome) (e : JsError)
    (h : axiosCall o = .rejected e) :
    (handlePostClaims reqBody ctx env o).response
      = { status := jsOrNat (e.response.map DownstreamResponse.status) 503,
          body := .errObj "Claims service unavailable" (some e.message) } ∧
    (handleGetClaimById id ctx env o).response
      = { status := jsOrNat (e.response.map DownstreamResponse.status) 503,
          body := .errObj "Claims service unavailable" none } ∧
    (handleGetClaims ctx env o).response
      = { status := jsOrNat (e.response.map DownstreamResponse.status) 503,
          body := .errObj "Claims service unavailable" none } ∧
    (handleGetPolicy custId ctx env o).response
      = { status := jsOrNat (e.response.map DownstreamResponse.status) 503,
          body := .errObj "Policy service unavailable" none } ∧
    (handleGetPolicyCoverage custId ctx env o).response
      = { status := jsOrNat (e.response.map DownstreamResponse.status) 503,
          body := .errObj "Policy service unavailable" none } ∧
    (handleGetInvestments custId ctx env o).response
      = { status := jsOrNat (e.response.map DownstreamResponse.status) 503,
          body := .errObj "Investment service unavailable" none } ∧
    (handleChaosStatus ctx env o).response
      = { status := 503, body := .errObj "Chaos controller unavailable" none } ∧
    (handleChaosToggle reqBody ctx env o).response
      = { status := 503, body := .errObj "Chaos controller unavailable" none } := by
  refine ⟨?_, ?_, ?_, ?_, ?_, ?_, ?_, ?_⟩ <;>
    simp [handlePostClaims, handleGetClaimById, handleGetClaims, handleGetPolicy,
          handleGetPolicyCoverage, handleGetInvestments, handleChaosStatus,
          handleChaosToggle, forwardRequest, h]

/-- Witness for C3 (amended) at a transport failure: claims route answers 503
with details, chaos route answers its fixed 503 body. -/
theorem forwardFailure_response_contract_witness :
    (handlePostClaims "\x7b\x7d" ctx0 none (.transport "connect ECONNREFUSED")).response
      = { status := 503,
          body := .errObj "Claims service unavailable" (some "connect ECONNREFUSED") } ∧
    (handleChaosStatus ctx0 none (.transport "connect ECONNREFUSED")).response
      = { status := 503, body := .errObj "Chaos controller unavailable" none } :=
  ⟨(forwardFailure_response_contract "\x7b\x7d" "x" "x" ctx0 none
      (.transport "connect ECONNREFUSED")
      { message := "connect ECONNREFUSED", response := none } rfl).1,
   (forwardFailure_response_contract "\x7b\x7d" "x" "x" ctx0 none
      (.transport "connect ECONNREFUSED")
      { message := "connect ECONNREFUSED", response := none } rfl).2.2.2.2.2.2.1⟩

end Gateway
